import Mathlib

/-!
Shallow embedding of the EcoQuest API narrative engine.

Source files embedded (Python):
  cloud_function/main.py              -- inbound per-IP rate limiter + decorator
  cloud_function/floresta/floresta.py -- floresta scenario engine
  cloud_function/floresta/mangue.py   -- mangue scenario engine
  cloud_function/floresta/mar.py      -- mar scenario engine (upstream limiter + retry)

Modelling conventions:
  * Python strings are `List Char`; `str.strip`, `str.removeprefix`,
    `str.removesuffix`, slicing and `in`/`split` are embedded character by
    character below.
  * Timestamps (`datetime.now()`) are integers counting milliseconds, which
    represents every time constant of the source exactly (including the
    0.5 s sleep margin); `timedelta` comparisons become integer comparisons.
  * `json.loads` is an external collaborator (Python stdlib); it is modelled
    as a parameter `jl : List Char → Option JValue` where `JValue` is the
    JSON value tree it can return and `none` is `JSONDecodeError`.  Every
    theorem about the parse-and-repair path quantifies over `jl`.
  * The HTTP call to the upstream completion endpoint is a parameter as well:
    either an `Outcome` per attempt (for the retrying client) or the final
    `Except CallErr` result of the client (for the turn functions).
  * Python exceptions that escape a modelled region are `Except` errors;
    a `try/except Exception` block that returns a status-"error" payload is
    an explicit error constructor carrying the session state at that point.
-/

/-! ## Python string primitives -/

/-- Characters stripped by Python `str.strip()` with no argument
(space, tab, newline, carriage return, vertical tab, form feed). -/
def isPySpace (c : Char) : Bool :=
  c = ' ' || c = '\t' || c = '\n' || c = '\r' || c = Char.ofNat 11 || c = Char.ofNat 12

/-- Left half of Python `str.strip()`. -/
def pyStripLeft (s : List Char) : List Char := s.dropWhile isPySpace

/-- Python `str.strip()` : drop whitespace from both ends. -/
def pyStrip (s : List Char) : List Char :=
  ((pyStripLeft s).reverse.dropWhile isPySpace).reverse

/-- Python `str.strip(chars)` : drop any of `chars` from both ends. -/
def pyStripChars (chars : List Char) (s : List Char) : List Char :=
  (((s.dropWhile (fun c => chars.contains c)).reverse.dropWhile
      (fun c => chars.contains c)).reverse)

/-- Python `str.removeprefix(p)` (equivalently `if s.startswith(p): s = s[len(p):]`). -/
def removeHeadMark (p s : List Char) : List Char :=
  if p.isPrefixOf s then s.drop p.length else s

/-- Python `str.removesuffix(p)` (equivalently `if s.endswith(p): s = s[:-len(p)]`). -/
def removeTailMark (p s : List Char) : List Char :=
  if p.isSuffixOf s then s.take (s.length - p.length) else s

/-- Python slice `l[-m:]` for a non-negative literal `m`
(`m = 0` yields the whole list, Python `l[-0:] = l[0:]`). -/
def pySliceFromNeg (m : Nat) (l : List α) : List α :=
  if m = 0 then l else l.drop (l.length - m)

/-- Python slice `l[:-m]` for a non-negative literal `m`
(`m = 0` yields the empty list, Python `l[:-0] = l[:0]`). -/
def pySliceUptoNeg (m : Nat) (l : List α) : List α :=
  if m = 0 then [] else l.take (l.length - m)

/-- Python `sep.join(xs)`. -/
def joinSep (sep : List Char) : List (List Char) → List Char
  | [] => []
  | [x] => x
  | x :: y :: rest => x ++ sep ++ joinSep sep (y :: rest)

/-- Text following the first occurrence of `sep` in `s`
(`s.split(sep)[1] ++ later parts`, defined iff `sep in s`); `sep` is the
non-empty literal marker used by the source. -/
def afterMarker (sep : List Char) : List Char → Option (List Char)
  | [] => none
  | c :: rest =>
    if sep.isPrefixOf (c :: rest) then some ((c :: rest).drop sep.length)
    else afterMarker sep rest

/-! ## Conversation messages -/

/-- One entry of `conversation_history`: a dict with keys `role`, `content`. -/
structure Msg where
  role : List Char
  content : List Char
deriving DecidableEq

def userS : List Char := "user".toList

def assistantS : List Char := "assistant".toList

/-! ## ContextManager (floresta.py lines 65-132)

The mangue/mar copies differ only in the literal summary strings; the claims
cite the floresta copy, which is embedded verbatim here. -/

/-- Marker scanned for in old user turns (`"Decisão:" in content`). -/
def decisionMarker : List Char := "Decisão:".toList

/-- The decision text embedded in a user message, if any:
`content.split("Decisão:")[1].split("\n")[0].strip(' "')`
(floresta.py lines 105-110). -/
def extractDecision (content : List Char) : Option (List Char) :=
  (afterMarker decisionMarker content).map
    (fun rest => pyStripChars [' ', '"'] (rest.takeWhile (fun c => c != '\n')))

/-- `ContextManager._create_summary` (floresta.py lines 100-114). -/
def createSummary (oldHistory : List Msg) : List Char :=
  let decisions := oldHistory.filterMap
    (fun m => if m.role = userS then extractDecision m.content else none)
  if decisions = [] then "Investigação em andamento".toList
  else "Ações anteriores: ".toList ++ joinSep " → ".toList (pySliceFromNeg 3 decisions)

/-- `ContextManager.compress_history` (floresta.py lines 75-98).
`maxHistory` is the `max_history` constructor argument (`maxRecentPairs` in
the specification); `currentPhase` is accepted and unused, as in the source. -/
def compressHistory (maxHistory : Nat) (history : List Msg) (currentPhase : List Char) :
    List Msg :=
  if history.length ≤ maxHistory * 2 then history
  else
    let recent := pySliceFromNeg (maxHistory * 2) history
    let summary := createSummary (pySliceUptoNeg (maxHistory * 2) history)
    ⟨userS, "RESUMO ANTERIOR: ".toList ++ summary⟩ :: recent

/-! ## JSON values and dict access

`json.loads` can return any JSON value (dict, list, string, number, bool,
null).  Objects are association lists with distinct keys, as produced by
Python dicts. -/

inductive JValue where
  | null
  | bool (b : Bool)
  | num (q : ℚ)
  | str (s : List Char)
  | arr (elems : List JValue)
  | obj (fields : List (List Char × JValue))

/-- Whether a parsed JSON value is an object (a Python dict). -/
def JValue.isObj : JValue → Bool
  | .obj _ => true
  | _ => false

/-- Python dict lookup `d.get(k)` on the fields of an object. -/
def jGet (fs : List (List Char × JValue)) (k : List Char) : Option JValue :=
  (fs.find? (fun p => decide (p.1 = k))).map (fun p => p.2)

/-- Python dict lookup with default, `d.get(k, default)`. -/
def jGetD (fs : List (List Char × JValue)) (k : List Char) (d : JValue) : JValue :=
  match jGet fs k with
  | some v => v
  | none => d

/-- Python truthiness of a JSON value (`if x:`). -/
def jTruthy : JValue → Bool
  | .null => false
  | .bool b => b
  | .num q => if q = 0 then false else true
  | .str s => !s.isEmpty
  | .arr xs => !xs.isEmpty
  | .obj fs => !fs.isEmpty

/-- A Python `TypeError` raised by using an unhashable value (list / dict)
as a dict key. -/
inductive PyErr where
  | typeErr
deriving DecidableEq

/-! ## Fence stripping and JSON repair (`_clean_json_response`)

floresta.py lines 184-207 strips with explicit `startswith`/slicing; mar.py
line 230 uses `removeprefix`/`removesuffix`, which Python defines as exactly
the same conditional slices, so both copies share one embedding. -/

/-- The three-backtick fence marker. -/
def tick3 : List Char := ['\x60', '\x60', '\x60']

/-- The three-backtick fence marker with the `json` language tag. -/
def tickJson : List Char := ['\x60', '\x60', '\x60', 'j', 's', 'o', 'n']

/-- The fence-stripping prelude of `_clean_json_response`:
`strip`, remove a leading three-backtick marker with optional `json` tag,
remove a trailing three-backtick marker, `strip` again. -/
def stripFences (s : List Char) : List Char :=
  pyStrip (removeTailMark tick3 (removeHeadMark tick3 (removeHeadMark tickJson (pyStrip s))))

/-- `_clean_json_response` parameterized by its parse-failure fallback dict:
parse the stripped text and substitute the fallback on `JSONDecodeError`. -/
def cleanJsonResponseWith (fallback : JValue) (jl : List Char → Option JValue)
    (responseText : List Char) : JValue :=
  match jl (stripFences responseText) with
  | some v => v
  | none => fallback

/-! ## Standardized narrative keys -/

def sceneK : List Char := "scene".toList

def panelK : List Char := "panel_description".toList

def optionsK : List Char := "options".toList

def innerK : List Char := "inner_voice_options".toList

def clueK : List Char := "clue".toList

def evdK : List Char := "evidence_discovered".toList

def dangerK : List Char := "danger".toList

def dangerLK : List Char := "danger_level".toList

def phaseK : List Char := "phase".toList

def medioS : List Char := "médio".toList

/-- The `standardized` dict built by the game masters after a parse. -/
structure Standardized where
  panelDescription : JValue
  innerVoiceOptions : JValue
  evidenceDiscovered : JValue
  dangerLevel : JValue
  phase : JValue

/-- Key standardization in floresta.py (lines 307-313 and 234-240): each
field tries the primary key, then the already-standardized key, then a
literal default; `phaseDefault` is `game_state["phase"]` in `continue_game`
and the literal first phase in `start_game`. -/
def florestaStandardize (fs : List (List Char × JValue)) (phaseDefault : JValue) :
    Standardized where
  panelDescription := jGetD fs sceneK (jGetD fs panelK (.str []))
  innerVoiceOptions := jGetD fs optionsK (jGetD fs innerK (.arr []))
  evidenceDiscovered := jGetD fs clueK (jGetD fs evdK .null)
  dangerLevel := jGetD fs dangerK (jGetD fs dangerLK (.str medioS))
  phase := jGetD fs phaseK phaseDefault

/-- Key standardization in mar.py (lines 260-266 and 308-314): single
`get` with a literal default per field. -/
def marStandardize (fs : List (List Char × JValue)) (phaseDefault : JValue) :
    Standardized where
  panelDescription := jGetD fs sceneK (.str [])
  innerVoiceOptions := jGetD fs optionsK (.arr [])
  evidenceDiscovered := jGetD fs clueK .null
  dangerLevel := jGetD fs dangerK (.str medioS)
  phase := jGetD fs phaseK phaseDefault

/-- Key standardization in mangue.py (lines 176-182 and 223-229), textually
identical to the mar copy. -/
def mangueStandardize : List (List Char × JValue) → JValue → Standardized :=
  marStandardize

/-- `danger_map.get(danger_level, 40)` with
`danger_map = .. baixo 20, médio 40, alto 70, crítico 95 ..` (identical in
all three scenario files).  A list or dict key raises `TypeError`; any other
non-matching hashable value returns the default 40. -/
def dangerLookup : JValue → Except PyErr Int
  | .arr _ => .error .typeErr
  | .obj _ => .error .typeErr
  | .str s =>
    .ok (if s = "baixo".toList then 20
      else if s = medioS then 40
      else if s = "alto".toList then 70
      else if s = "crítico".toList then 95
      else 40)
  | _ => .ok 40

/-- `table.get(key, default)` for a dict with string keys and a `JValue`
key expression (`chapter_map.get(game_state["phase"], ..)` and
`INVESTIGATION_PHASES.get(game_state["phase"], ..)`). -/
def strKeyedGet (table : List (List Char × α)) (k : JValue) (d : α) : Except PyErr α :=
  match k with
  | .arr _ => .error .typeErr
  | .obj _ => .error .typeErr
  | .str s =>
    .ok (match (table.find? (fun p => decide (p.1 = s))).map (fun p => p.2) with
      | some v => v
      | none => d)
  | _ => .ok d

/-! ## Session state and turn outcomes -/

/-- The `game_state` dict threaded through turns.  The engine itself always
creates and maintains these four keys; `phase` and the evidence entries hold
whatever JSON values the upstream reply put there. -/
structure Session where
  phase : JValue
  evidenceCollected : List JValue
  dangerMeter : Int
  conversationHistory : List Msg

/-- Result of the upstream client `_call_groq` as seen by a turn:
the reply text, or the exception it raised. -/
inductive CallErr where
  | rateLimitExhausted
  | timeoutExhausted
  | httpOther (code : Nat)
  | requestFailed
  | noAttempt
deriving DecidableEq

/-- What a `continue_game` call produces: the `status: success` payload
(chapter, standardized narrative, mutated session), or the
`status: error` payload of the `except Exception` handler together with the
in-memory session state at the moment the exception was raised. -/
inductive TurnOutcome where
  | success (chapter : List Char) (narrative : Standardized) (sess : Session)
  | errorResult (sess : Session)

/-- The in-memory session state after the turn, for either outcome. -/
def TurnOutcome.session : TurnOutcome → Session
  | .success _ _ s => s
  | .errorResult s => s

/-- Whether the turn payload carries `status: "error"`. -/
def TurnOutcome.isError : TurnOutcome → Bool
  | .success _ _ _ => false
  | .errorResult _ => true

/-- What a `start_game` call produces: the success payload (narrative plus
fresh `game_state`), or the `status: error` payload, which carries no
session. -/
inductive StartOutcome where
  | success (narrative : Standardized) (sess : Session)
  | errorResult

/-! ## Floresta scenario (floresta.py) -/

def descobertaS : List Char := "descoberta".toList

/-- Keys of the floresta `INVESTIGATION_PHASES` table (floresta.py lines
8-39): the scenario's five defined phase keys. -/
def florestaPhaseKeys : List (List Char) :=
  [ descobertaS,
    "investigacao_inicial".toList,
    "evidencias".toList,
    "confronto".toList,
    "resolucao".toList ]

/-- The `scene` of the floresta parse-failure fallback (line 202). -/
def florestaFallbackSceneS : List Char :=
  "A floresta aguarda sua decisão. O tempo passa.".toList

/-- The `options` of the floresta parse-failure fallback (line 203). -/
def florestaFallbackOptionsL : List JValue :=
  [ .str "Avançar cautelosamente".toList,
    .str "Analisar o ambiente".toList,
    .str "Chamar reforços".toList ]

/-- Fields of the parse-failure fallback dict of floresta
`_clean_json_response` (lines 200-207). -/
def florestaFallbackFields : List (List Char × JValue) :=
  [ (sceneK, .str florestaFallbackSceneS),
    (optionsK, .arr florestaFallbackOptionsL),
    (clueK, .null),
    (dangerK, .str medioS),
    (phaseK, .str descobertaS) ]

/-- Parse-failure fallback dict of floresta `_clean_json_response`
(lines 200-207). -/
def florestaFallback : JValue := .obj florestaFallbackFields

/-- floresta `_clean_json_response` (lines 184-207). -/
def florestaClean : (List Char → Option JValue) → List Char → JValue :=
  cleanJsonResponseWith florestaFallback

/-- `chapter_map` of floresta `continue_game` (lines 328-334). -/
def florestaChapterMap : List (List Char × List Char) :=
  [ (descobertaS, "CAPÍTULO 1: O CHAMADO DAS CINZAS".toList),
    ("investigacao_inicial".toList, "CAPÍTULO 2: RASTROS NA MATA".toList),
    ("evidencias".toList, "CAPÍTULO 3: A MÁQUINA DA DESTRUIÇÃO".toList),
    ("confronto".toList, "CAPÍTULO 4: FACES DA IMPUNIDADE".toList),
    ("resolucao".toList, "CAPÍTULO 5: JUSTIÇA OU SILÊNCIO".toList) ]

/-- `chapter_map.get(game_state["phase"], "INVESTIGAÇÃO")`. -/
def florestaChapter (k : JValue) : Except PyErr (List Char) :=
  strKeyedGet florestaChapterMap k "INVESTIGAÇÃO".toList

/-- The `try:` block of floresta `continue_game` (lines 296-349).
`upstream` is the result of `self._call_groq(messages)`;
`continuePrompt` is the `continue_prompt` string built before the block.
Mutation order follows the source: evidence append, danger meter, phase,
history extension, chapter lookup; an exception caught by
`except Exception` yields the error payload with the session as mutated so
far. -/
def florestaContinueCore (jl : List Char → Option JValue)
    (upstream : Except CallErr (List Char)) (continuePrompt : List Char)
    (s : Session) : TurnOutcome :=
  match upstream with
  | .error _ => .errorResult s
  | .ok responseText =>
    match florestaClean jl responseText with
    | .obj fs =>
      let std := florestaStandardize fs s.phase
      let s1 :=
        if jTruthy std.evidenceDiscovered then
          { s with evidenceCollected := s.evidenceCollected ++ [std.evidenceDiscovered] }
        else s
      match dangerLookup std.dangerLevel with
      | .error _ => .errorResult s1
      | .ok dm =>
        let s3 :=
          { s1 with
            dangerMeter := dm
            phase := std.phase
            conversationHistory := s1.conversationHistory ++
              [⟨userS, continuePrompt⟩, ⟨assistantS, responseText⟩] }
        match florestaChapter s3.phase with
        | .error _ => .errorResult s3
        | .ok ch => .success ch std s3
    | _ =>
      -- `.get` on a parsed non-dict raises AttributeError before any mutation
      .errorResult s

/-- `opening_prompt` of floresta `start_game` (lines 212-222). -/
def florestaOpeningPrompt : List Char :=
  ("ABERTURA - \"OPERAÇÃO CINZAS DA FLORESTA\"\n\nCenário: Agente ambiental, 05:47h, estrada de terra. Incêndio em floresta úmida (estação chuvosa). IMPOSSÍVEL naturalmente.\n\nO agente sente: algo está ERRADO. 15 anos de experiência não mentem.\n\n[VOZ INTERIOR - VOCÊ]\nPrimeira decisão. O que o agente faz?\n\nCrie cena de abertura dramática estilo HQ noir. 3 opções de ação.\nResponda APENAS JSON.").toList

/-- The `try:` block of floresta `start_game` (lines 224-263): standardize
the reply and build `initial_state` with the literal phase `descoberta` and
`danger_meter = 25`. -/
def florestaStartCore (jl : List Char → Option JValue)
    (upstream : Except CallErr (List Char)) : StartOutcome :=
  match upstream with
  | .error _ => .errorResult
  | .ok responseText =>
    match florestaClean jl responseText with
    | .obj fs =>
      let std := florestaStandardize fs (.str descobertaS)
      .success std
        { phase := .str descobertaS
          evidenceCollected :=
            if jTruthy std.evidenceDiscovered then [std.evidenceDiscovered] else []
          dangerMeter := 25
          conversationHistory :=
            [⟨userS, florestaOpeningPrompt⟩, ⟨assistantS, responseText⟩] }
    | _ => .errorResult

/-! ## Mar scenario (mar.py) -/

def denunciaS : List Char := "denuncia".toList

/-- Keys of the mar `INVESTIGATION_PHASES` table (mar.py lines 10-41). -/
def marPhaseKeys : List (List Char) :=
  [ denunciaS,
    "confronto_inicial".toList,
    "inspecao".toList,
    "comunidade".toList,
    "decisao".toList ]

/-- Parse-failure fallback dict of mar `_clean_json_response`
(lines 234-240). -/
def marFallback : JValue :=
  .obj
    [ (sceneK, .str "O oceano ruge. Uma decisão precisa ser tomada.".toList),
      (optionsK, .arr
        [ .str "Abordar o barco".toList,
          .str "Observar à distância".toList,
          .str "Contatar a base".toList ]),
      (clueK, .null),
      (dangerK, .str medioS),
      (phaseK, .str denunciaS) ]

/-- mar `_clean_json_response` (lines 228-240). -/
def marClean : (List Char → Option JValue) → List Char → JValue :=
  cleanJsonResponseWith marFallback

/-- `chapter_map` of mar `continue_game` (lines 327-333). -/
def marChapterMap : List (List Char × List Char) :=
  [ (denunciaS, "CAPÍTULO 1: O GRITO DO OCEANO".toList),
    ("confronto_inicial".toList, "CAPÍTULO 2: CAPITÃO DO AÇO".toList),
    ("inspecao".toList, "CAPÍTULO 3: PORÕES DA GANÂNCIA".toList),
    ("comunidade".toList, "CAPÍTULO 4: VOZES DA TRADIÇÃO".toList),
    ("decisao".toList, "CAPÍTULO 5: A BALANÇA DA JUSTIÇA".toList) ]

/-- `chapter_map.get(game_state["phase"], "INVESTIGAÇÃO")` for mar. -/
def marChapter (k : JValue) : Except PyErr (List Char) :=
  strKeyedGet marChapterMap k "INVESTIGAÇÃO".toList

/-- The `try:` block of mar `continue_game` (lines 302-346); same shape as
the floresta copy with mar's standardization, fallback and chapter table. -/
def marContinueCore (jl : List Char → Option JValue)
    (upstream : Except CallErr (List Char)) (continuePrompt : List Char)
    (s : Session) : TurnOutcome :=
  match upstream with
  | .error _ => .errorResult s
  | .ok responseText =>
    match marClean jl responseText with
    | .obj fs =>
      let std := marStandardize fs s.phase
      let s1 :=
        if jTruthy std.evidenceDiscovered then
          { s with evidenceCollected := s.evidenceCollected ++ [std.evidenceDiscovered] }
        else s
      match dangerLookup std.dangerLevel with
      | .error _ => .errorResult s1
      | .ok dm =>
        let s3 :=
          { s1 with
            dangerMeter := dm
            phase := std.phase
            conversationHistory := s1.conversationHistory ++
              [⟨userS, continuePrompt⟩, ⟨assistantS, responseText⟩] }
        match marChapter s3.phase with
        | .error _ => .errorResult s3
        | .ok ch => .success ch std s3
    | _ => .errorResult s

/-- `opening_prompt` of mar `start_game` (lines 244-250). -/
def marOpeningPrompt : List Char :=
  ("ABERTURA - \"REDES DA SOBREVIVÊNCIA\"\n\nCenário: Lancha de fiscalização, mar agitado. No horizonte, um barco industrial gigante opera onde apenas pequenos barcos de pesca artesanal deveriam estar. O rádio chia com a voz desesperada do líder da comunidade local.\n\n[DILEMA] A indústria pesqueira é poderosa. Uma abordagem errada pode custar seu emprego. Não fazer nada condena uma comunidade inteira à fome.\n\nCrie a cena inicial. 3 opções de ação. JSON apenas.").toList

/-- The `try:` block of mar `start_game` (lines 252-288):
`danger_meter = 40`, phase literal `denuncia`. -/
def marStartCore (jl : List Char → Option JValue)
    (upstream : Except CallErr (List Char)) : StartOutcome :=
  match upstream with
  | .error _ => .errorResult
  | .ok responseText =>
    match marClean jl responseText with
    | .obj fs =>
      let std := marStandardize fs (.str denunciaS)
      .success std
        { phase := .str denunciaS
          evidenceCollected :=
            if jTruthy std.evidenceDiscovered then [std.evidenceDiscovered] else []
          dangerMeter := 40
          conversationHistory :=
            [⟨userS, marOpeningPrompt⟩, ⟨assistantS, responseText⟩] }
    | _ => .errorResult

/-! ## Mangue scenario (mangue.py), start path only -/

def chegadaS : List Char := "chegada".toList

/-- Parse-failure fallback dict of mangue `_clean_json_response`
(lines 146-153). -/
def mangueFallback : JValue :=
  .obj
    [ (sceneK, .str "O mangue aguarda. Decisões difíceis pela frente.".toList),
      (optionsK, .arr
        [ .str "Investigar mais".toList,
          .str "Confrontar proprietário".toList,
          .str "Buscar provas".toList ]),
      (clueK, .null),
      (dangerK, .str medioS),
      (phaseK, .str chegadaS) ]

/-- mangue `_clean_json_response` (lines 134-153). -/
def mangueClean : (List Char → Option JValue) → List Char → JValue :=
  cleanJsonResponseWith mangueFallback

/-- `opening_prompt` of mangue `start_game` (lines 156-166). -/
def mangueOpeningPrompt : List Char :=
  ("ABERTURA - \"GUARDIÕES DO MANGUE\"\n\nCenário: Costa luxuosa. Mansões com piers sobre mangue. Você é o agente ambiental.\n\nProprietário idoso, família tradicional. Alega: \"Meu avô construiu isso antes da reserva. Tenho documentos.\"\n\nMangue = berçário marinho + proteção costeira. Mas... e se ele estiver certo?\n\n[DILEMA] Multa errada = sanção disciplinar. Não multar = crime continua.\n\nCrie cena inicial. 3 opções. JSON apenas.").toList

/-- The `try:` block of mangue `start_game` (lines 168-204):
`danger_meter = 30`, phase literal `chegada`. -/
def mangueStartCore (jl : List Char → Option JValue)
    (upstream : Except CallErr (List Char)) : StartOutcome :=
  match upstream with
  | .error _ => .errorResult
  | .ok responseText =>
    match mangueClean jl responseText with
    | .obj fs =>
      let std := mangueStandardize fs (.str chegadaS)
      .success std
        { phase := .str chegadaS
          evidenceCollected :=
            if jTruthy std.evidenceDiscovered then [std.evidenceDiscovered] else []
          dangerMeter := 30
          conversationHistory :=
            [⟨userS, mangueOpeningPrompt⟩, ⟨assistantS, responseText⟩] }
    | _ => .errorResult

/-! ## Upstream rate limiter (mar.py `RateLimiter`, lines 73-111)

Timestamps (`datetime.now()`) and durations are integers counting
MILLISECONDS, which represents every constant of the source exactly:
`time_window=60` s is `60000`, the `+0.5` s sleep margin is `500`, the
3-second cooldown is `3000`, and Python `int(x)` of a non-negative number
of seconds is division by `1000` truncating toward zero.

`self.requests` is a deque of timestamps, appended in call order; both this
class and the inbound limiter in main.py evict stale entries by popping from
the left while the head is older than the window, which on a list is
`dropWhile`. -/

/-- `while requests and (now - requests[0]) > time_window: requests.popleft()`. -/
def purgeOld (timeWindow : Int) (now : Int) (reqs : List Int) : List Int :=
  reqs.dropWhile (fun t => decide (now - t > timeWindow))

/-- `RateLimiter.wait_if_needed` (mar.py lines 87-111).  Returns the time at
which the admitted upstream call starts (after any sleep) and the updated
deque.  When the purged window is at capacity the caller sleeps until the
oldest entry expires plus a 0.5 s (500 ms) safety margin, re-purges at the
new time and registers that time. -/
def waitIfNeeded (maxRequests : Nat) (timeWindow : Int) (reqs : List Int) (now : Int) :
    Int × List Int :=
  let r1 := purgeOld timeWindow now reqs
  if maxRequests ≤ r1.length then
    match r1 with
    | [] => (now, [now])
    | t0 :: _ =>
      let waitTime := (t0 + timeWindow) - now
      if 0 < waitTime then
        let now2 := now + waitTime + 500
        (now2, purgeOld timeWindow now2 r1 ++ [now2])
      else (now, r1 ++ [now])
  else (now, r1 ++ [now])

/-- `MarGameMaster.__init__` (mar.py line 160) builds
`RateLimiter(max_requests=25, time_window=60)` whose deque starts empty, and
`mar_handler` (line 352) constructs a fresh `MarGameMaster` — hence a fresh,
empty limiter — on every invocation. -/
def marHandlerInitialLimiter : List Int := []

/-- Start time of the first upstream attempt made by one `mar_handler`
invocation entered at `now`: the limiter consulted is the fresh instance's
own empty deque. -/
def marHandlerUpstreamStart (now : Int) : Int :=
  (waitIfNeeded 25 60000 marHandlerInitialLimiter now).1

/-- How many of the call start times `ts` fall within the trailing
60-second window ending at `T`. -/
def windowCount (T : Int) (ts : List Int) : Nat :=
  (ts.filter (fun t => decide (T - 60000 < t) && decide (t ≤ T))).length

/-! ## Retrying upstream client (mar.py `_call_groq`, lines 163-226)

One loop iteration per `attempt in range(max_retries)`.  The HTTP exchange
of each attempt is the parameter `upstream : Nat → Outcome`.  The result
records the final `Except`, the number of attempts actually issued, and the
list of backoff sleeps (seconds) taken between attempts.  The
`rate_limiter.wait_if_needed()` admission wait at the top of each iteration
is modelled separately by `waitIfNeeded` and affects neither the outcome nor
the attempt count. -/

/-- What one HTTP attempt does: a 2xx reply with text, an `HTTPError` with a
status code from `raise_for_status`, a `Timeout`, or another
`RequestException`. -/
inductive Outcome where
  | ok (text : List Char)
  | httpErr (code : Nat)
  | timeout
  | reqErr

/-- The loop body of mar `_call_groq`, with `fuel = max_retries - attempt`
iterations remaining; `fuel = 0` is Python's empty `range` falling through
(only reachable with `max_retries = 0`). -/
def callGroqAux (upstream : Nat → Outcome) (maxRetries : Nat) :
    Nat → Nat → Except CallErr (List Char) × Nat × List Nat
  | _, 0 => (.error .noAttempt, 0, [])
  | attempt, fuel + 1 =>
    match upstream attempt with
    | .ok t => (.ok t, 1, [])
    | .httpErr c =>
      if c = 429 then
        if attempt < maxRetries - 1 then
          let r := callGroqAux upstream maxRetries (attempt + 1) fuel
          (r.1, r.2.1 + 1, 2 ^ (attempt + 1) :: r.2.2)
        else (.error .rateLimitExhausted, 1, [])
      else (.error (.httpOther c), 1, [])
    | .timeout =>
      if attempt < maxRetries - 1 then
        let r := callGroqAux upstream maxRetries (attempt + 1) fuel
        (r.1, r.2.1 + 1, 2 :: r.2.2)
      else (.error .timeoutExhausted, 1, [])
    | .reqErr => (.error .requestFailed, 1, [])

/-- mar `_call_groq(messages, max_tokens, max_retries)`: run the retry loop
from attempt 0. -/
def callGroq (upstream : Nat → Outcome) (maxRetries : Nat) :
    Except CallErr (List Char) × Nat × List Nat :=
  callGroqAux upstream maxRetries 0 maxRetries

/-- floresta `_call_groq` (floresta.py lines 152-182; the mangue copy at
lines 114-132 is identical): a single attempt, no rate limiter, no retry —
every `requests.exceptions.RequestException` (including HTTP 429) is
re-raised as a generic exception. -/
def florestaCallGroq (attempt : Outcome) : Except CallErr (List Char) :=
  match attempt with
  | .ok t => .ok t
  | _ => .error .requestFailed

/-! ## Inbound per-IP rate limiter (main.py, lines 35-210) -/

/-- The per-identity slice of the limiter's state:
`ip_requests[ip]` (deque of timestamps, in milliseconds) and
`last_request_time.get(ip)`.  Distinct IPs live in distinct dict entries
and never interact, so one identity's admission decision depends only on
this record. -/
structure InState where
  window : List Int
  lastRequest : Option Int
deriving DecidableEq

/-- `RateLimiter.check_cooldown` (main.py lines 63-79) with
`cooldown_seconds = 3` (3000 ms): returns `(allowed, time_remaining)`,
the remaining time in milliseconds. -/
def checkCooldown (st : InState) (now : Int) : Bool × Int :=
  match st.lastRequest with
  | some l => if now - l < 3000 then (false, 3000 - (now - l)) else (true, 0)
  | none => (true, 0)

/-- `RateLimiter.check_rate_limit` (main.py lines 81-113) with
`max_requests_per_minute = 20`, `time_window = 60` s: purge the deque, deny
with `retry_after = int((oldest + window - now).total_seconds()) + 1`
seconds when at capacity (`Int` division by 1000 truncates toward zero
exactly as Python `int()` does on these non-negative values).  Returns
`(allowed, purged deque, retry_after)`; the informational counters of the
source's info dict are omitted. -/
def checkRateLimit (st : InState) (now : Int) : Bool × List Int × Int :=
  let purged := purgeOld 60000 now st.window
  if 20 ≤ purged.length then
    match purged with
    | [] => (false, purged, 0)
    | t0 :: _ => (false, purged, (t0 + 60000 - now) / 1000 + 1)
  else (true, purged, 0)

/-- Decision of the `apply_rate_limit` decorator for one request
(main.py lines 155-210): the 429 cooldown denial with
`retry_after = int(time_remaining) + 1` seconds, the 429 window denial, or
admission followed by `register_request` (append `now` to the already-purged
deque, set `last_request_time`). -/
inductive AdmitOutcome where
  | cooldownDenied (retryAfter : Int)
  | rateDenied (retryAfter : Int)
  | allowed (st : InState)
deriving DecidableEq

/-- `apply_rate_limit` admission logic for one identity at time `now`. -/
def applyRateLimit (st : InState) (now : Int) : AdmitOutcome :=
  let cd := checkCooldown st now
  if cd.1 = false then .cooldownDenied (cd.2 / 1000 + 1)
  else
    let rl := checkRateLimit st now
    if rl.1 = false then .rateDenied rl.2.2
    else .allowed ⟨rl.2.1 ++ [now], some now⟩

/-! ## Concrete fixtures for witnesses and counterexamples

These instantiate the external-collaborator parameters (`json.loads`, the
upstream HTTP exchange) with specific behaviours that the real collaborators
exhibit on the named inputs, so that concrete runs of the embedded code can
be evaluated. -/

/-- A parse function that parses exactly the one input `s` to the value `v`
and fails on everything else. -/
def jlConstAt (s : List Char) (v : JValue) : List Char → Option JValue :=
  fun t => if t = s then some v else none

def replyS : List Char := "RESP".toList

def xyzS : List Char := "xyz".toList

def confrontoS : List Char := "confronto".toList

def threeS : List Char := "3".toList

/-- `json.loads` behaviour on the reply text `RESP` when that text is the
JSON document with a single field `phase: "xyz"`. -/
def jlPhaseXyz : List Char → Option JValue := jlConstAt replyS (.obj [(phaseK, .str xyzS)])

/-- `json.loads` behaviour on the reply text `RESP` when that text is the
empty JSON object. -/
def jlEmptyObj : List Char → Option JValue := jlConstAt replyS (.obj [])

/-- `json.loads` behaviour on the reply text `3`: valid JSON parsing to the
number 3, which is not an object. -/
def jlNum3 : List Char → Option JValue := jlConstAt threeS (.num 3)

/-- A parse function that always fails (`JSONDecodeError` on every input). -/
def jlNever : List Char → Option JValue := fun _ => none

/-- A session mid-game: phase `confronto`, no evidence, meter 25, empty
history. -/
def sessPre : Session := ⟨.str confrontoS, [], 25, []⟩

/-- An upstream that answers HTTP 429 to every attempt. -/
def upAlways429 : Nat → Outcome := fun _ => .httpErr 429

/-- An upstream that answers 200 with body `OK` immediately. -/
def upOkNow : Nat → Outcome := fun _ => .ok "OK".toList

/-- An upstream that answers 429 once, then 200 with body `OK`. -/
def upOneThenOk : Nat → Outcome := fun i => if i = 0 then .httpErr 429 else .ok "OK".toList

/-- An upstream that answers 429 twice, then 200 with body `OK`. -/
def upTwoThenOk : Nat → Outcome := fun i => if i ≤ 1 then .httpErr 429 else .ok "OK".toList

/-! # Helper lemmas -/

/-- The head surviving a `dropWhile` fails the predicate: the oldest entry
left by a purge is within the window. -/
theorem dropWhile_head_false (p : α → Bool) (l : List α) (x : α) (xs : List α)
    (h : l.dropWhile p = x :: xs) : p x = false := by
  induction l with
  | nil => simp [List.dropWhile] at h
  | cons a t ih =>
    rw [List.dropWhile_cons] at h
    by_cases hp : p a
    · exact ih (by simpa [hp] using h)
    · obtain ⟨rfl, -⟩ : a = x ∧ t = xs := by simpa [hp] using h
      simpa using hp

/-! # Claims -/

/-- C4.  If the upstream call of a continue turn fails with any error
(non-429 HTTP error, network error, retries exhausted — any `CallErr`), the
turn returns the status-"error" payload and the caller's session — phase,
evidence, danger meter, conversation history — is exactly the pre-call
value, in both the floresta and the mar engines. -/
theorem failed_upstream_leaves_session_unchanged (jl : List Char → Option JValue)
    (prompt : List Char) (s : Session) (e : CallErr) :
    florestaContinueCore jl (.error e) prompt s = .errorResult s ∧
    marContinueCore jl (.error e) prompt s = .errorResult s ∧
    (TurnOutcome.errorResult s).isError = true ∧
    (TurnOutcome.errorResult s).session = s :=
  ⟨rfl, rfl, rfl, rfl⟩

/-- C9.  The context compressor returns short transcripts unchanged: for
every transcript and every `max_history`, a transcript of length at most
`2 * max_history` is returned as-is. -/
theorem compress_idempotent_short (k : Nat) (t : List Msg) (ph : List Char)
    (h : t.length ≤ 2 * k) : compressHistory k t ph = t := by
  unfold compressHistory
  rw [if_pos (by omega)]

/-- Witness for C9 at a concrete input. -/
theorem compress_idempotent_short_wit :
    ([(⟨userS, []⟩ : Msg)].length ≤ 2 * 3) ∧
      compressHistory 3 [⟨userS, []⟩] [] = [⟨userS, []⟩] :=
  ⟨by decide, compress_idempotent_short 3 [⟨userS, []⟩] [] (by decide)⟩

/-- C8 counterexample.  With `max_history = 0` and a one-entry transcript
(length 1 > 2·0), Python's `history[-0:]` is the whole list, so the
compressor returns the summary message plus ALL entries — 2 entries, not
the 1 + 2·0 = 1 the claim predicts. -/
theorem compress_zero_pairs_cex :
    (1 : Nat) > 2 * 0 ∧
    (compressHistory 0 [(⟨userS, []⟩ : Msg)] []).length = 2 ∧
    (2 : Nat) ≠ 1 + 2 * 0 :=
  ⟨by decide, by decide, by decide⟩

/-- C8 as amended: for every `max_history > 0`, a transcript longer than
`2 * max_history` compresses to exactly one synthetic user summary message
followed by the last `2 * max_history` entries unchanged (hence
1 + 2·max_history entries in total; 7 for a 20-entry transcript with
`max_history = 3`). -/
theorem compress_long_transcript (k : Nat) (t : List Msg) (ph : List Char)
    (hk : 0 < k) (hlen : 2 * k < t.length) :
    compressHistory k t ph =
      ⟨userS, "RESUMO ANTERIOR: ".toList ++ createSummary (t.take (t.length - 2 * k))⟩ ::
        t.drop (t.length - 2 * k) ∧
    (t.drop (t.length - 2 * k)).length = 2 * k ∧
    (compressHistory k t ph).length = 1 + 2 * k := by
  have hne : ¬ t.length ≤ k * 2 := by omega
  have hk2 : ¬ k * 2 = 0 := by omega
  have h1 : compressHistory k t ph =
      ⟨userS, "RESUMO ANTERIOR: ".toList ++ createSummary (t.take (t.length - 2 * k))⟩ ::
        t.drop (t.length - 2 * k) := by
    unfold compressHistory
    rw [if_neg hne]
    unfold pySliceFromNeg pySliceUptoNeg
    rw [if_neg hk2, if_neg hk2, Nat.mul_comm k 2]
  have h2 : (t.drop (t.length - 2 * k)).length = 2 * k := by
    rw [List.length_drop]; omega
  refine ⟨h1, h2, ?_⟩
  rw [h1]
  simp only [List.length_cons, h2]
  omega

/-- Witness for C8 (amended) at the 20-entry / `max_history = 3` instance
named by the claim. -/
theorem compress_long_transcript_wit :
    (0 < 3 ∧ 2 * 3 < (List.replicate 20 (⟨userS, []⟩ : Msg)).length) ∧
    (compressHistory 3 (List.replicate 20 (⟨userS, []⟩ : Msg)) []).length = 1 + 2 * 3 :=
  ⟨⟨by decide, by decide⟩,
    (compress_long_transcript 3 (List.replicate 20 ⟨userS, []⟩) []
      (by decide) (by decide)).2.2⟩

/-- C10.  For every parse behaviour and every upstream reply, a successful
`start_game` returns a `game_state` whose `danger_meter` is the literal
per-scenario constant — 25 for floresta, 30 for mangue, 40 for mar — so the
`danger` field of the reply never influences the initial meter. -/
theorem start_danger_meter_constant :
    (∀ (jl : List Char → Option JValue) (up : Except CallErr (List Char))
      (nv : Standardized) (sess : Session),
      florestaStartCore jl up = .success nv sess → sess.dangerMeter = 25) ∧
    (∀ (jl : List Char → Option JValue) (up : Except CallErr (List Char))
      (nv : Standardized) (sess : Session),
      mangueStartCore jl up = .success nv sess → sess.dangerMeter = 30) ∧
    (∀ (jl : List Char → Option JValue) (up : Except CallErr (List Char))
      (nv : Standardized) (sess : Session),
      marStartCore jl up = .success nv sess → sess.dangerMeter = 40) := by
  refine ⟨?_, ?_, ?_⟩ <;>
    · intro jl up nv sess h
      first
      | unfold florestaStartCore at h
      | unfold mangueStartCore at h
      | unfold marStartCore at h
      repeat' split at h
      all_goals
        first
        | (cases h; rfl)
        | exact StartOutcome.noConfusion h

/-- Witness for C10: concrete start turns whose replies carry a `danger`
field, with the resulting meters. -/
theorem start_danger_meter_constant_wit :
    (∃ nv sess, florestaStartCore jlEmptyObj (.ok replyS) = .success nv sess ∧
      sess.dangerMeter = 25) ∧
    (∃ nv sess, mangueStartCore jlEmptyObj (.ok replyS) = .success nv sess ∧
      sess.dangerMeter = 30) ∧
    (∃ nv sess, marStartCore jlEmptyObj (.ok replyS) = .success nv sess ∧
      sess.dangerMeter = 40) :=
  ⟨⟨_, _, rfl, start_danger_meter_constant.1 jlEmptyObj (.ok replyS) _ _ rfl⟩,
    ⟨_, _, rfl, start_danger_meter_constant.2.1 jlEmptyObj (.ok replyS) _ _ rfl⟩,
    ⟨_, _, rfl, start_danger_meter_constant.2.2 jlEmptyObj (.ok replyS) _ _ rfl⟩⟩

/-- C1 counterexample.  A continue turn whose reply parses to the object
with the single field `phase: "xyz"` — `xyz` is not one of the scenario's
defined phase keys — moves the floresta session's phase from `confronto` to
`xyz`: the engine adopts the unrecognized phase instead of holding the
pre-call value. -/
theorem continue_unrecognized_phase_cex :
    florestaPhaseKeys.contains xyzS = false ∧
    sessPre.phase = .str confrontoS ∧
    (florestaContinueCore jlPhaseXyz (.ok replyS) [] sessPre).session.phase = .str xyzS ∧
    xyzS ≠ confrontoS := by
  refine ⟨by decide, rfl, rfl, by decide⟩

/-- C1 as amended: on a continue turn whose reply parses as an object (and
whose danger field is hashable), the session's phase after the turn is the
reply's `phase` field whenever that field is present — recognized by the
scenario or not — and only an ABSENT `phase` field leaves the phase at its
pre-call value (`game_response.get("phase", game_state["phase"])`), in both
the floresta and the mar engines. -/
theorem continue_phase_follows_reply
    (jl : List Char → Option JValue) (txt prompt : List Char) (s : Session)
    (fsF fsM : List (List Char × JValue)) (dmF dmM : Int)
    (hF : florestaClean jl txt = .obj fsF)
    (hdF : dangerLookup (florestaStandardize fsF s.phase).dangerLevel = .ok dmF)
    (hM : marClean jl txt = .obj fsM)
    (hdM : dangerLookup (marStandardize fsM s.phase).dangerLevel = .ok dmM) :
    ((florestaContinueCore jl (.ok txt) prompt s).session.phase
        = jGetD fsF phaseK s.phase) ∧
    ((marContinueCore jl (.ok txt) prompt s).session.phase
        = jGetD fsM phaseK s.phase) := by
  constructor
  · simp only [florestaContinueCore, hF, hdF]
    split <;> rfl
  · simp only [marContinueCore, hM, hdM]
    split <;> rfl

/-- Witness for C1 (amended) at the counterexample's concrete turn. -/
theorem continue_phase_follows_reply_wit :
    ((florestaContinueCore jlPhaseXyz (.ok replyS) [] sessPre).session.phase
        = jGetD [(phaseK, .str xyzS)] phaseK sessPre.phase) ∧
    ((marContinueCore jlPhaseXyz (.ok replyS) [] sessPre).session.phase
        = jGetD [(phaseK, .str xyzS)] phaseK sessPre.phase) :=
  continue_phase_follows_reply jlPhaseXyz replyS [] sessPre
    [(phaseK, .str xyzS)] [(phaseK, .str xyzS)] 40 40 rfl rfl rfl rfl

/-- C3 counterexample.  The reply text `RESP` parses successfully as the
empty object, so every field is absent; yet the standardized scene is the
empty string — not the fallback's placeholder scene — the options are the
empty list — not the fallback's 3 placeholder options — and the phase is
the session's current phase `confronto` — not the fallback's phase
`descoberta`. -/
theorem standardize_defaults_cex :
    florestaClean jlEmptyObj replyS = .obj [] ∧
    (florestaStandardize [] (.str confrontoS)).panelDescription = .str [] ∧
    jGet florestaFallbackFields sceneK = some (.str florestaFallbackSceneS) ∧
    JValue.str [] ≠ JValue.str florestaFallbackSceneS ∧
    (florestaStandardize [] (.str confrontoS)).innerVoiceOptions = .arr [] ∧
    jGet florestaFallbackFields optionsK = some (.arr florestaFallbackOptionsL) ∧
    JValue.arr [] ≠ JValue.arr florestaFallbackOptionsL ∧
    (florestaStandardize [] (.str confrontoS)).phase = .str confrontoS ∧
    jGet florestaFallbackFields phaseK = some (.str descobertaS) ∧
    confrontoS ≠ descobertaS := by
  refine ⟨rfl, rfl, rfl, ?_, rfl, rfl, ?_, rfl, rfl, by decide⟩
  · intro h
    injection h with h2
    exact absurd h2 (by decide)
  · intro h
    injection h with h2
    exact List.cons_ne_nil _ _ h2.symm

/-- C3 as amended: on parse success as an object, an absent `clue` defaults
to null and an absent `danger` defaults to `médio` — the same values as the
fallback — but an absent scene defaults to the empty string (after also
trying `panel_description`), absent options default to the empty list
(after also trying `inner_voice_options`), and an absent phase defaults to
the caller's current phase, none of which are the fallback placeholders. -/
theorem standardize_absent_field_defaults
    (fs : List (List Char × JValue)) (ph : JValue)
    (hs : jGet fs sceneK = none) (hp2 : jGet fs panelK = none)
    (ho : jGet fs optionsK = none) (hi : jGet fs innerK = none)
    (hc : jGet fs clueK = none) (he : jGet fs evdK = none)
    (hd : jGet fs dangerK = none) (hd2 : jGet fs dangerLK = none)
    (hph : jGet fs phaseK = none) :
    (florestaStandardize fs ph).panelDescription = .str [] ∧
    (florestaStandardize fs ph).innerVoiceOptions = .arr [] ∧
    (florestaStandardize fs ph).evidenceDiscovered = .null ∧
    (florestaStandardize fs ph).dangerLevel = .str medioS ∧
    (florestaStandardize fs ph).phase = ph := by
  simp [florestaStandardize, jGetD, hs, hp2, ho, hi, hc, he, hd, hd2, hph]

/-- Witness for C3 (amended) at the empty parsed object. -/
theorem standardize_absent_field_defaults_wit :
    (florestaStandardize [] JValue.null).panelDescription = .str [] ∧
    (florestaStandardize [] JValue.null).innerVoiceOptions = .arr [] ∧
    (florestaStandardize [] JValue.null).evidenceDiscovered = .null ∧
    (florestaStandardize [] JValue.null).dangerLevel = .str medioS ∧
    (florestaStandardize [] JValue.null).phase = JValue.null :=
  standardize_absent_field_defaults [] .null rfl rfl rfl rfl rfl rfl rfl rfl rfl

/-- Purging drops a stale head entry. -/
theorem purgeOld_cons_of_old (w n t0 : Int) (rest : List Int) (h : n - t0 > w) :
    purgeOld w n (t0 :: rest) = purgeOld w n rest := by
  unfold purgeOld
  rw [List.dropWhile_cons, if_pos (decide_eq_true h)]

/-- Purging never lengthens the deque. -/
theorem purgeOld_length_le (w n : Int) (l : List Int) : (purgeOld w n l).length ≤ l.length :=
  (List.dropWhile_sublist _).length_le

/-- C2 counterexample.  26 `mar_handler` invocations entered at the same
time each construct a fresh `MarGameMaster`, hence a fresh empty
`RateLimiter`, so each one admits its upstream call with no wait: 26
upstream calls start within one trailing 60-second window, exceeding the
claimed process-wide bound of 25. -/
theorem upstream_limiter_not_process_wide_cex :
    List.map marHandlerUpstreamStart (List.replicate 26 0) = List.replicate 26 (0 : Int) ∧
    windowCount 0 (List.map marHandlerUpstreamStart (List.replicate 26 0)) = 26 ∧
    ¬ (26 ≤ 25) :=
  ⟨by decide, by decide, by decide⟩

/-- C2 as amended: the 25-per-60 s sliding-window limiter exists only in
the mar engine and only per `MarGameMaster` instance (each `mar_handler`
invocation starts a fresh instance with an empty window, and the
floresta/mangue clients have no limiter at all), so no process-wide bound
holds; within one instance, `wait_if_needed` invoked when the purged window
holds exactly 25 entries whose oldest is still strictly inside the window
delays the upstream call until 0.5 s past the oldest entry's expiry and
leaves at most 25 registered admissions. -/
theorem mar_limiter_delays_when_window_full
    (reqs : List Int) (now t0 : Int) (rest : List Int)
    (hp : purgeOld 60000 now reqs = t0 :: rest)
    (hlen : rest.length = 24)
    (hfresh : now - t0 < 60000) :
    (waitIfNeeded 25 60000 reqs now).1 = t0 + 60000 + 500 ∧
    (waitIfNeeded 25 60000 reqs now).2.length ≤ 25 := by
  have hlen1 : (25 : Nat) ≤ (t0 :: rest).length := by simp [hlen]
  have hwt : (0 : Int) < t0 + 60000 - now := by omega
  have hkey : waitIfNeeded 25 60000 reqs now
      = (now + (t0 + 60000 - now) + 500,
          purgeOld 60000 (now + (t0 + 60000 - now) + 500) (t0 :: rest)
            ++ [now + (t0 + 60000 - now) + 500]) := by
    simp only [waitIfNeeded, hp]
    rw [if_pos hlen1, if_pos hwt]
  have h1 : (waitIfNeeded 25 60000 reqs now).1 = now + (t0 + 60000 - now) + 500 := by
    rw [hkey]
  have h2 : (waitIfNeeded 25 60000 reqs now).2
      = purgeOld 60000 (now + (t0 + 60000 - now) + 500) (t0 :: rest)
        ++ [now + (t0 + 60000 - now) + 500] := by
    rw [hkey]
  constructor
  · rw [h1]; omega
  · rw [h2, purgeOld_cons_of_old _ _ _ _ (by omega)]
    have h3 := purgeOld_length_le 60000 (now + (t0 + 60000 - now) + 500) rest
    simp only [List.length_append, List.length_cons, List.length_nil]
    omega

/-- Witness for C2 (amended): a window of 25 admissions at time 0 consulted
at 30 s delays the next call to 60.5 s. -/
theorem mar_limiter_delays_when_window_full_wit :
    purgeOld 60000 30000 (List.replicate 25 (0 : Int)) = 0 :: List.replicate 24 (0 : Int) ∧
    (List.replicate 24 (0 : Int)).length = 24 ∧
    ((30000 : Int) - 0 < 60000) ∧
    (waitIfNeeded 25 60000 (List.replicate 25 (0 : Int)) 30000).1 = 0 + 60000 + 500 ∧
    (waitIfNeeded 25 60000 (List.replicate 25 (0 : Int)) 30000).2.length ≤ 25 :=
  ⟨by decide, by decide, by decide,
    (mar_limiter_delays_when_window_full (List.replicate 25 0) 30000 0
      (List.replicate 24 0) (by decide) (by decide) (by decide)).1,
    (mar_limiter_delays_when_window_full (List.replicate 25 0) 30000 0
      (List.replicate 24 0) (by decide) (by decide) (by decide)).2⟩

/-- C5.  The retrying client with `max_retries = 3`: if every attempt gets
HTTP 429 the call makes exactly 3 attempts, sleeps 2 s then 4 s between
them, and fails with the rate-limit-exhausted error; a 2xx answer on the
first attempt returns its text with exactly 1 attempt and no sleeps; a 429
answered by a 2xx retries after a 2 s sleep; 429, 429, 2xx succeeds on the
third attempt after sleeping 2 s then 4 s. -/
theorem retry_backoff_behavior (upstream : Nat → Outcome) (t : List Char) :
    ((∀ i, upstream i = .httpErr 429) →
      callGroq upstream 3 = (.error .rateLimitExhausted, 3, [2, 4])) ∧
    (upstream 0 = .ok t → callGroq upstream 3 = (.ok t, 1, [])) ∧
    (upstream 0 = .httpErr 429 → upstream 1 = .ok t →
      callGroq upstream 3 = (.ok t, 2, [2])) ∧
    (upstream 0 = .httpErr 429 → upstream 1 = .httpErr 429 → upstream 2 = .ok t →
      callGroq upstream 3 = (.ok t, 3, [2, 4])) := by
  refine ⟨?_, ?_, ?_, ?_⟩
  · intro h
    simp [callGroq, callGroqAux, h 0, h 1, h 2]
  · intro h0
    simp [callGroq, callGroqAux, h0]
  · intro h0 h1
    simp [callGroq, callGroqAux, h0, h1]
  · intro h0 h1 h2
    simp [callGroq, callGroqAux, h0, h1, h2]

/-- Witness for C5 at four concrete upstream behaviours. -/
theorem retry_backoff_behavior_wit :
    callGroq upAlways429 3 = (.error .rateLimitExhausted, 3, [2, 4]) ∧
    callGroq upOkNow 3 = (.ok "OK".toList, 1, []) ∧
    callGroq upOneThenOk 3 = (.ok "OK".toList, 2, [2]) ∧
    callGroq upTwoThenOk 3 = (.ok "OK".toList, 3, [2, 4]) :=
  ⟨(retry_backoff_behavior upAlways429 "OK".toList).1 (fun _ => rfl),
    (retry_backoff_behavior upOkNow "OK".toList).2.1 rfl,
    (retry_backoff_behavior upOneThenOk "OK".toList).2.2.1 rfl rfl,
    (retry_backoff_behavior upTwoThenOk "OK".toList).2.2.2 rfl rfl rfl⟩

/-- C6.  Whenever an identity's purged window already holds exactly 20
admissions, the next request is denied with a strictly positive
`retry_after` — and when the 3-second cooldown has elapsed (or never
started), the denial is specifically the window denial, whose reason code
is `RATE_LIMIT_EXCEEDED` in the source. -/
theorem inbound_denies_after_window_full (st : InState) (now : Int)
    (h20 : (purgeOld 60000 now st.window).length = 20) :
    (∃ r : Int, 0 < r ∧
      (applyRateLimit st now = .cooldownDenied r ∨ applyRateLimit st now = .rateDenied r)) ∧
    ((∀ l, st.lastRequest = some l → 3000 ≤ now - l) →
      ∃ r : Int, applyRateLimit st now = .rateDenied r ∧ 0 < r) := by
  obtain ⟨t0, rest, hcons⟩ : ∃ a l, purgeOld 60000 now st.window = a :: l := by
    cases hpp : purgeOld 60000 now st.window with
    | nil => rw [hpp] at h20; simp at h20
    | cons a l => exact ⟨a, l, rfl⟩
  have hhead : (decide (now - t0 > 60000)) = false :=
    dropWhile_head_false _ st.window t0 rest (by simpa [purgeOld] using hcons)
  have hle : (0 : Int) ≤ t0 + 60000 - now := by
    have := of_decide_eq_false hhead
    omega
  have hrpos : (0 : Int) < (t0 + 60000 - now) / 1000 + 1 :=
    Int.lt_add_one_iff.mpr (Int.ediv_nonneg hle (by norm_num))
  have h20' : (t0 :: rest).length = 20 := by rw [← hcons]; exact h20
  have hrl : checkRateLimit st now = (false, t0 :: rest, (t0 + 60000 - now) / 1000 + 1) := by
    simp only [checkRateLimit, hcons]
    rw [if_pos (le_of_eq h20'.symm)]
  constructor
  · cases hlast : st.lastRequest with
    | none =>
      refine ⟨(t0 + 60000 - now) / 1000 + 1, hrpos, Or.inr ?_⟩
      simp [applyRateLimit, checkCooldown, hlast, hrl]
    | some l =>
      by_cases hcd : now - l < 3000
      · refine ⟨(3000 - (now - l)) / 1000 + 1, ?_, Or.inl ?_⟩
        · exact Int.lt_add_one_iff.mpr (Int.ediv_nonneg (by omega) (by norm_num))
        · simp [applyRateLimit, checkCooldown, hlast, hcd, hrl]
      · refine ⟨(t0 + 60000 - now) / 1000 + 1, hrpos, Or.inr ?_⟩
        simp [applyRateLimit, checkCooldown, hlast, hcd, hrl]
  · intro hcool
    cases hlast : st.lastRequest with
    | none =>
      refine ⟨(t0 + 60000 - now) / 1000 + 1, ?_, hrpos⟩
      simp [applyRateLimit, checkCooldown, hlast, hrl]
    | some l =>
      have hcd : ¬ (now - l < 3000) := by
        have := hcool l hlast
        omega
      refine ⟨(t0 + 60000 - now) / 1000 + 1, ?_, hrpos⟩
      simp [applyRateLimit, checkCooldown, hlast, hcd, hrl]

/-- Witness for C6: an identity with 20 admissions at time 0, asking again
at 10 s (cooldown long elapsed), is denied by the window check with a
positive retry-after. -/
theorem inbound_denies_after_window_full_wit :
    (purgeOld 60000 10000 (List.replicate 20 (0 : Int))).length = 20 ∧
    (∃ r : Int,
      applyRateLimit ⟨List.replicate 20 (0 : Int), some 0⟩ 10000 = .rateDenied r ∧ 0 < r) :=
  ⟨by decide,
    (inbound_denies_after_window_full ⟨List.replicate 20 (0 : Int), some 0⟩ 10000
        (by decide)).2
      (fun l hl => by cases hl; decide)⟩

/-- `strip` ignores a leading whitespace character. -/
theorem pyStrip_cons_space (c : Char) (s : List Char) (h : isPySpace c = true) :
    pyStrip (c :: s) = pyStrip s := by
  unfold pyStrip pyStripLeft
  rw [List.dropWhile_cons, if_pos h]

/-- `strip` ignores a trailing whitespace character. -/
theorem pyStrip_append_space (c : Char) (s : List Char) (h : isPySpace c = true) :
    pyStrip (s ++ [c]) = pyStrip s := by
  unfold pyStrip pyStripLeft
  rw [List.dropWhile_append]
  by_cases hd : (s.dropWhile isPySpace).isEmpty
  · rw [if_pos hd]
    have hs : s.dropWhile isPySpace = [] := by
      cases he : s.dropWhile isPySpace with
      | nil => rfl
      | cons a l => rw [he] at hd; simp at hd
    rw [hs]
    simp [List.dropWhile_cons, h]
  · rw [if_neg hd]
    rw [List.reverse_append]
    simp [List.dropWhile_cons, h]

/-- `strip` of a string with non-whitespace first and last characters is
the identity. -/
theorem pyStrip_nonspace_ends (a b : Char) (mid : List Char)
    (ha : isPySpace a = false) (hb : isPySpace b = false) :
    pyStrip (a :: (mid ++ [b])) = a :: (mid ++ [b]) := by
  unfold pyStrip pyStripLeft
  rw [List.dropWhile_cons, if_neg (by simp [ha])]
  rw [List.reverse_cons, List.reverse_append]
  simp [List.dropWhile_cons, hb]

/-- The fence-stripping prelude on a reply wrapped in a ```json fence:
it removes exactly the fences and the strip recovers the enclosed text. -/
theorem stripFences_fenced (core : List Char) :
    stripFences (tickJson ++ ('\n' :: core) ++ ('\n' :: tick3)) = pyStrip core := by
  have hform : tickJson ++ ('\n' :: core) ++ ('\n' :: tick3)
      = '\x60' :: ((['\x60', '\x60', 'j', 's', 'o', 'n', '\n'] ++ core
          ++ ['\n', '\x60', '\x60']) ++ ['\x60']) := by
    simp [tickJson, tick3]
  have hstrip0 : pyStrip (tickJson ++ ('\n' :: core) ++ ('\n' :: tick3))
      = tickJson ++ ('\n' :: core) ++ ('\n' :: tick3) := by
    rw [hform]
    exact pyStrip_nonspace_ends _ _ _ (by decide) (by decide)
  have h1 : removeHeadMark tickJson (tickJson ++ ('\n' :: core) ++ ('\n' :: tick3))
      = ('\n' :: core) ++ ('\n' :: tick3) := by
    unfold removeHeadMark
    rw [List.append_assoc,
      if_pos (List.isPrefixOf_iff_prefix.mpr (List.prefix_append _ _)), List.drop_left]
  have h2 : removeHeadMark tick3 (('\n' :: core) ++ ('\n' :: tick3))
      = ('\n' :: core) ++ ('\n' :: tick3) := by
    unfold removeHeadMark
    have hnp : ¬ tick3 <+: (('\n' :: core) ++ ('\n' :: tick3)) := by
      intro hpf
      obtain ⟨u, hu⟩ := hpf
      rw [show tick3 ++ u = '\x60' :: (['\x60', '\x60'] ++ u) from rfl] at hu
      rw [show (('\n' :: core) ++ ('\n' :: tick3)) = '\n' :: (core ++ ('\n' :: tick3))
        from rfl] at hu
      injection hu with hc _
      exact absurd hc (by decide)
    rw [if_neg (by simp only [List.isPrefixOf_iff_prefix]; exact hnp)]
  have h3 : removeTailMark tick3 (('\n' :: core) ++ ('\n' :: tick3))
      = ('\n' :: core) ++ ['\n'] := by
    unfold removeTailMark
    rw [show (('\n' :: core) ++ ('\n' :: tick3)) = (('\n' :: core) ++ ['\n']) ++ tick3
      from by simp]
    rw [if_pos (List.isSuffixOf_iff_suffix.mpr (List.suffix_append _ _))]
    rw [List.take_left' (by simp [tick3])]
  unfold stripFences
  rw [hstrip0, h1, h2, h3]
  rw [show (('\n' :: core) ++ ['\n']) = '\n' :: (core ++ ['\n']) from rfl]
  rw [pyStrip_cons_space _ _ (by decide), pyStrip_append_space _ _ (by decide)]

/-- C7 counterexample.  The reply text `3` is valid JSON, so the normalizer
returns it as parsed — the number 3, which is not an object and has none of
the narrative-turn fields — rather than a narrative turn; the fallback is
not substituted because no parse failure occurred (in both the floresta and
the mar copies). -/
theorem clean_nonobject_cex :
    florestaClean jlNum3 threeS = .num 3 ∧
    marClean jlNum3 threeS = .num 3 ∧
    (JValue.num 3).isObj = false ∧
    florestaClean jlNum3 threeS ≠ florestaFallback := by
  refine ⟨rfl, rfl, rfl, ?_⟩
  intro h
  rw [show florestaClean jlNum3 threeS = JValue.num 3 from rfl] at h
  exact JValue.noConfusion h

/-- C7 as amended: for every input string the normalizer returns a JSON
value and never raises — it strips a leading ```json / ``` fence and a
trailing ``` fence, returns the fixed fallback turn when the remaining text
fails to parse, and returns the parsed value AS-IS when it parses, which is
a narrative-turn object only when the upstream produced a JSON object. -/
theorem clean_total_strip_fallback :
    (∀ (jl : List Char → Option JValue) (s : List Char),
      jl (stripFences s) = none →
        florestaClean jl s = florestaFallback ∧ marClean jl s = marFallback ∧
        mangueClean jl s = mangueFallback) ∧
    (∀ (jl : List Char → Option JValue) (s : List Char) (v : JValue),
      jl (stripFences s) = some v →
        florestaClean jl s = v ∧ marClean jl s = v ∧ mangueClean jl s = v) ∧
    (∀ core : List Char,
      stripFences (tickJson ++ ('\n' :: core) ++ ('\n' :: tick3)) = pyStrip core) := by
  refine ⟨?_, ?_, stripFences_fenced⟩
  · intro jl s h
    refine ⟨?_, ?_, ?_⟩ <;>
      simp [florestaClean, marClean, mangueClean, cleanJsonResponseWith, h]
  · intro jl s v h
    refine ⟨?_, ?_, ?_⟩ <;>
      simp [florestaClean, marClean, mangueClean, cleanJsonResponseWith, h]

/-- Witness for C7 (amended): the fallback on an unparseable reply, and a
parsed non-object returned as-is. -/
theorem clean_total_strip_fallback_wit :
    florestaClean jlNever "x".toList = florestaFallback ∧
    marClean jlNever "x".toList = marFallback ∧
    marClean jlNum3 threeS = .num 3 :=
  ⟨(clean_total_strip_fallback.1 jlNever "x".toList rfl).1,
    (clean_total_strip_fallback.1 jlNever "x".toList rfl).2.1,
    (clean_total_strip_fallback.2.1 jlNum3 threeS (.num 3) rfl).2.1⟩
